import Mathlib

/-!
Shallow embedding of `src/1_foundations/app.py`: a personal-assistant chatbot
built around a tool-calling conversation loop (`Me.chat` /
`Me.handle_tool_call`), two side-effecting tools (`record_user_details`,
`record_unknown_question`), a notification sender (`push`), and static tool
declarations (`tools`).

Modelling conventions:
- The external notification transport (`requests.post`) is a fire-and-forget
  sink: the Python code discards its return value.  We model the outcome of
  each send as an oracle `sinkOk : String → Bool` whose value the embedded
  code computes and discards, so theorems can quantify over send outcomes.
- The remote generation endpoint is modelled by a finite script of responses,
  one consumed per round of the loop; an exhausted script stands for an
  endpoint call that fails (spec: endpoint failures propagate to the caller).
- `json.loads` on a tool call's argument string is modelled by an
  `ArgPayload` that is either `malformed` (the parse raises
  `json.JSONDecodeError`) or an `obj` of key/value pairs.  All parameters
  declared in the tool schemas have type `string`, so values are strings.
- Python exceptions are modelled with `Except PyErr`; external side effects
  performed before an exception survive it, so functions return
  `Except PyErr α × World`.
-/

set_option autoImplicit false

namespace App

/-- Errors a turn can raise: a `json.loads` failure on tool-call arguments,
a `TypeError` from binding keyword arguments, a failing call to the remote
generation endpoint, and a call to a module-level binding whose behaviour is
outside this model (modules, classes, dicts: no claim exercises them). -/
inductive PyErr where
  | jsonDecodeError
  | typeError
  | endpointError
  | nonToolCall
  deriving Repr, DecidableEq

/-- Outcome of `json.loads(tool_call.function.arguments)`: either the string
fails to parse, or it parses to an object with string values (all parameters
declared in `tools` have JSON type `string`). -/
inductive ArgPayload where
  | malformed
  | obj (kv : List (String × String))
  deriving Repr, DecidableEq

/-- `tool_call.function`: the requested tool name and its argument payload. -/
structure ToolCallFunction where
  name : String
  arguments : ArgPayload
  deriving Repr, DecidableEq

/-- One tool-call request carried by an assistant message (`tool_call.id`,
`tool_call.function`). -/
structure ToolCall where
  id : String
  function : ToolCallFunction
  deriving Repr, DecidableEq

/-- `choice.message`: text content (nullable) plus the ordered tool-call
requests. -/
structure AssistantMsg where
  content : Option String
  tool_calls : List ToolCall
  deriving Repr, DecidableEq

/-- One element of the `messages` sequence: a role, optional text content,
the tool calls (assistant messages only) and `tool_call_id` (tool results
only), mirroring the dict/object entries the Python code appends. -/
structure Msg where
  role : String
  content : Option String
  tool_calls : List ToolCall := []
  tool_call_id : Option String := none
  deriving Repr, DecidableEq

/-- One scripted response of the generation endpoint:
`choice.finish_reason` and `choice.message`. -/
structure GenResponse where
  finish_reason : String
  message : AssistantMsg
  deriving Repr, DecidableEq

/-- Observable side effects of a turn: the notification texts handed to the
Pushover API in order, and the names of the global bindings invoked as tools
(dispatch events, for stating "no tool was invoked"). -/
structure World where
  sent : List String := []
  invoked : List String := []
  deriving Repr, DecidableEq

/-- Python value returned by an invoked tool: `None` (what `push` returns)
or a dict with string values (`{"recorded": "ok"}`, `{}`). -/
inductive ToolRet where
  | pyNone
  | dict (kv : List (String × String))
  deriving Repr, DecidableEq

/-- `json.dumps` on a tool's return value, with Python's default
separators. -/
def json_dumps : ToolRet → String
  | .pyNone => "null"
  | .dict kv =>
    "\x7b" ++ String.intercalate ", " (kv.map fun p => "\"" ++ p.1 ++ "\": \"" ++ p.2 ++ "\"") ++ "\x7d"

/-- `json.loads` on the argument payload (source line 103): a malformed
string raises `json.JSONDecodeError`, otherwise the decoded object is the
keyword-argument mapping. -/
def json_loads : ArgPayload → Except PyErr (List (String × String))
  | .malformed => .error .jsonDecodeError
  | .obj kv => .ok kv

/-- `push(text)` (source lines 13-22): posts `text` to the Pushover API and
discards the `requests.post` result; `sinkOk` is the oracle giving the
outcome of this send, which the code never inspects. -/
def push (sinkOk : String → Bool) (text : String) (w : World) : World :=
  let _ := sinkOk text
  { w with sent := w.sent ++ [text] }

/-- The three module-level plain functions that a tool-call name can bind to
through `globals()`. -/
inductive PyFn where
  | push_fn
  | record_user_details_fn
  | record_unknown_question_fn
  deriving Repr, DecidableEq

/-- A module-level binding: one of the three plain functions, or some other
binding (module, class, dict, list) whose invocation this model does not
follow. -/
inductive PyGlobal where
  | fn (f : PyFn)
  | other
  deriving Repr, DecidableEq

/-- The module's global namespace after top-level execution: every name
bound at module level of `app.py`, in binding order. -/
def module_globals : List (String × PyGlobal) :=
  [("load_dotenv", .other), ("OpenAI", .other), ("json", .other),
   ("os", .other), ("requests", .other), ("PdfReader", .other),
   ("gr", .other),
   ("push", .fn .push_fn),
   ("record_user_details", .fn .record_user_details_fn),
   ("record_unknown_question", .fn .record_unknown_question_fn),
   ("record_user_details_json", .other), ("record_unknown_question_json", .other),
   ("tools", .other), ("Me", .other)]

/-- `globals().get(tool_name)` (source line 106). -/
def globals_get (name : String) : Option PyGlobal :=
  module_globals.lookup name

/-- Whether binding `kw` as `**kwargs` to `f`'s Python signature succeeds:
`push(text)`, `record_user_details(email, name=..., notes=...)`,
`record_unknown_question(question)`.  A missing required key or an
unexpected key raises `TypeError`. -/
def kwOk : PyFn → List (String × String) → Bool
  | .push_fn, kw =>
    (kw.lookup "text").isSome && kw.all (fun p => p.1 == "text")
  | .record_user_details_fn, kw =>
    (kw.lookup "email").isSome &&
      kw.all (fun p => p.1 == "email" || p.1 == "name" || p.1 == "notes")
  | .record_unknown_question_fn, kw =>
    (kw.lookup "question").isSome && kw.all (fun p => p.1 == "question")

/-- `record_user_details(email, name="Name not provided", notes="not provided")`
(source lines 24-27): pushes one notification and returns
`{"recorded": "ok"}`.  Only called once keyword binding succeeded. -/
def record_user_details (sinkOk : String → Bool)
    (email name notes : String) (w : World) : World × ToolRet :=
  (push sinkOk (s!"Recording {name} with email {email} and notes {notes}") w,
   .dict [("recorded", "ok")])

/-- `record_unknown_question(question)` (source lines 29-32): pushes one
notification and returns `{"recorded": "ok"}`. -/
def record_unknown_question (sinkOk : String → Bool)
    (question : String) (w : World) : World × ToolRet :=
  (push sinkOk (s!"Recording {question}") w, .dict [("recorded", "ok")])

/-- `tool(**arguments)` for one of the three module-level functions: bind the
decoded arguments to the signature (raising `TypeError` on mismatch) and run
the body. -/
def apply_fn (sinkOk : String → Bool) (f : PyFn)
    (kw : List (String × String)) (w : World) : Except PyErr ToolRet × World :=
  if kwOk f kw then
    match f with
    | .push_fn =>
      (.ok .pyNone, push sinkOk (((kw.lookup "text").getD "")) w)
    | .record_user_details_fn =>
      let email := (kw.lookup "email").getD ""
      let nm := (kw.lookup "name").getD "Name not provided"
      let notes := (kw.lookup "notes").getD "not provided"
      let r := record_user_details sinkOk email nm notes w
      (.ok r.2, r.1)
    | .record_unknown_question_fn =>
      let r := record_unknown_question sinkOk ((kw.lookup "question").getD "") w
      (.ok r.2, r.1)
  else (.error .typeError, w)

/-- `tool = globals().get(tool_name); result = tool(**arguments) if tool else {}`
(source lines 106-107): an unbound name yields the empty dict; a bound name
is invoked (recorded in `w.invoked`). -/
def dispatch (sinkOk : String → Bool) (name : String)
    (kw : List (String × String)) (w : World) : Except PyErr ToolRet × World :=
  match globals_get name with
  | none => (.ok (.dict []), w)
  | some (.fn f) => apply_fn sinkOk f kw { w with invoked := w.invoked ++ [name] }
  | some .other => (.error .nonToolCall, { w with invoked := w.invoked ++ [name] })

/-- `Me.handle_tool_call(tool_calls)` (source lines 99-114): for each request
in order, decode the arguments, resolve the name through `globals()`, invoke
it (or take `{}`), and emit one result message with role `"tool"`, the
serialized result as content, and the request's id as `tool_call_id`.  An
exception at any request propagates, keeping side effects already done. -/
def handle_tool_call (sinkOk : String → Bool) :
    List ToolCall → World → Except PyErr (List Msg) × World
  | [], w => (.ok [], w)
  | tc :: rest, w =>
    match json_loads tc.function.arguments with
    | .error e => (.error e, w)
    | .ok kw =>
      match dispatch sinkOk tc.function.name kw w with
      | (.error e, w') => (.error e, w')
      | (.ok ret, w') =>
        let msg : Msg := { role := "tool", content := some (json_dumps ret),
                           tool_call_id := some tc.id }
        match handle_tool_call sinkOk rest w' with
        | (.error e, w'') => (.error e, w'')
        | (.ok msgs, w'') => (.ok (msg :: msgs), w'')

/-- The immutable identity context of the `Me` instance: `self.name` (set in
`__init__`), `self.summary` and `self.linkedin` (read from files at
start-up). -/
structure Me where
  name : String
  summary : String
  linkedin : String
  deriving Repr, DecidableEq

/-- `Me.system_prompt` (source lines 116-135): the f-string built from the
identity context, reproduced byte for byte (including the trailing spaces of
the first two lines). -/
def Me.system_prompt (me : Me) : String :=
  let n := me.name
  let su := me.summary
  let li := me.linkedin
  s!"You are acting as {n}. \nYou are answering questions on {n}\x27s website, particularly about career, background, skills, and experience. \nYou must represent {n} professionally and faithfully.\n\nIf you don\x27t know an answer, use the `record_unknown_question` tool to log it.\nIf the user seems interested, ask for their email and log it with `record_user_details`.\n\nHere is background context:\n\n## Summary:\n{su}\n\n## LinkedIn Profile:\n{li}\n\nStay professional and engaging, as if talking to a potential client or employer.\n"

/-- The assistant message object appended back to the sequence when the
endpoint requested tools (`messages.append(message)`, source line 157). -/
def assistantMsg (m : AssistantMsg) : Msg :=
  { role := "assistant", content := m.content, tool_calls := m.tool_calls }

instance {ε α : Type} [DecidableEq ε] [DecidableEq α] : DecidableEq (Except ε α) := fun
  | .error a, .error b =>
    if h : a = b then .isTrue (by rw [h]) else .isFalse (by simp [h])
  | .error _, .ok _ => .isFalse (by simp)
  | .ok _, .error _ => .isFalse (by simp)
  | .ok a, .ok b =>
    if h : a = b then .isTrue (by rw [h]) else .isFalse (by simp [h])

/-- Everything observable about one turn of `Me.chat`: the returned value
(or the propagated exception), the final side-effect state, the number of
generation-endpoint calls made, and the message sequence passed to the
endpoint at each call. -/
structure TurnOutcome where
  result : Except PyErr (Option String)
  world : World
  ncalls : Nat
  passed : List (List Msg)
  deriving Repr, DecidableEq

/-- The `while not done` loop of `Me.chat` (source lines 144-162), one
scripted endpoint response consumed per round.  An exhausted script is an
endpoint call that raises (the request is still counted and its message
sequence recorded). -/
def chat_rounds (sinkOk : String → Bool) :
    List GenResponse → List Msg → World → TurnOutcome
  | [], msgs, w => ⟨.error .endpointError, w, 1, [msgs]⟩
  | r :: rest, msgs, w =>
    if r.finish_reason = "tool_calls" then
      match handle_tool_call sinkOk r.message.tool_calls w with
      | (.error e, w') => ⟨.error e, w', 1, [msgs]⟩
      | (.ok results, w') =>
        let o := chat_rounds sinkOk rest
          (msgs ++ [assistantMsg r.message] ++ results) w'
        ⟨o.result, o.world, o.ncalls + 1, msgs :: o.passed⟩
    else ⟨.ok r.message.content, w, 1, [msgs]⟩

/-- `Me.chat(message, history)` (source lines 137-162): build
`[system] + history + [user]` and run the loop. -/
def Me.chat (me : Me) (sinkOk : String → Bool) (script : List GenResponse)
    (message : String) (history : List Msg) (w : World) : TurnOutcome :=
  chat_rounds sinkOk script
    ({ role := "system", content := some me.system_prompt } :: history ++
      [{ role := "user", content := some message }]) w

/-- One advertised tool declaration (`record_user_details_json`,
`record_unknown_question_json`): name, description, declared parameter names
and required parameter names (all parameters have JSON type `string`). -/
structure ToolDecl where
  name : String
  description : String
  paramProperties : List String
  paramRequired : List String
  deriving Repr, DecidableEq

/-- Source lines 36-49. -/
def record_user_details_json : ToolDecl :=
  { name := "record_user_details",
    description := "Record that a user is interested in being in touch and provided an email address",
    paramProperties := ["email", "name", "notes"],
    paramRequired := ["email"] }

/-- Source lines 51-62. -/
def record_unknown_question_json : ToolDecl :=
  { name := "record_unknown_question",
    description := "Record any question that couldn\x27t be answered",
    paramProperties := ["question"],
    paramRequired := ["question"] }

/-- The static tool list advertised to the endpoint (source lines 64-67). -/
def tools : List ToolDecl := [record_user_details_json, record_unknown_question_json]

/-- The names of the declared (registered) tools. -/
def declared_tool_names : List String := tools.map (fun t => t.name)

/-- Whether every tool call in a list will be handled without an exception:
its arguments decode, and if its name resolves to one of the three plain
functions the keyword binding succeeds (a name resolving to a non-function
binding raises and is excluded). -/
def callOk (tc : ToolCall) : Bool :=
  match tc.function.arguments with
  | .malformed => false
  | .obj kw =>
    match globals_get tc.function.name with
    | none => true
    | some (.fn f) => kwOk f kw
    | some .other => false

/-! ## Helper lemmas -/

theorem apply_fn_ok (sinkOk : String → Bool) (f : PyFn)
    (kw : List (String × String)) (w : World) (h : kwOk f kw = true) :
    ∃ ret w', apply_fn sinkOk f kw w = (.ok ret, w') := by
  cases f <;> simp [apply_fn, h]

theorem handle_tool_call_all_ok (sinkOk : String → Bool) (tcs : List ToolCall)
    (h : tcs.all callOk = true) :
    ∀ w, ∃ res w', handle_tool_call sinkOk tcs w = (.ok res, w') := by
  induction tcs with
  | nil => intro w; exact ⟨[], w, rfl⟩
  | cons tc rest ih =>
    intro w
    rw [List.all_cons, Bool.and_eq_true] at h
    obtain ⟨h1, h2⟩ := h
    unfold callOk at h1
    rcases harg : tc.function.arguments with _ | kw
    · rw [harg] at h1; simp at h1
    · rw [harg] at h1
      rcases hg : globals_get tc.function.name with _ | g
      · obtain ⟨res, w', hres⟩ := ih h2 w
        refine ⟨{ role := "tool", content := some (json_dumps (.dict [])),
                  tool_call_id := some tc.id } :: res, w', ?_⟩
        simp [handle_tool_call, harg, json_loads, dispatch, hg, hres]
      · cases g with
        | fn f =>
          rw [hg] at h1
          obtain ⟨ret, w', happ⟩ :=
            apply_fn_ok sinkOk f kw { w with invoked := w.invoked ++ [tc.function.name] } h1
          obtain ⟨res, w'', hres⟩ := ih h2 w'
          refine ⟨{ role := "tool", content := some (json_dumps ret),
                    tool_call_id := some tc.id } :: res, w'', ?_⟩
          simp [handle_tool_call, harg, json_loads, dispatch, hg, happ, hres]
        | other => rw [hg] at h1; simp at h1

theorem handle_tool_call_results_spec (sinkOk : String → Bool)
    (tcs : List ToolCall) (w w' : World) (res : List Msg)
    (h : handle_tool_call sinkOk tcs w = (.ok res, w')) :
    res.length = tcs.length ∧
    (∀ m ∈ res, m.role = "tool") ∧
    res.map (fun m => m.tool_call_id) = tcs.map (fun tc => some tc.id) := by
  induction tcs generalizing w res with
  | nil =>
    rw [show handle_tool_call sinkOk [] w = (.ok [], w) from rfl] at h
    simp only [Prod.mk.injEq, Except.ok.injEq] at h
    obtain ⟨h1, -⟩ := h
    subst h1
    simp
  | cons tc rest ih =>
    unfold handle_tool_call at h
    rcases harg : json_loads tc.function.arguments with e | kw <;>
      rw [harg] at h <;> dsimp only at h
    · simp at h
    · rcases hd : dispatch sinkOk tc.function.name kw w with ⟨r1, w1⟩
      rw [hd] at h
      rcases r1 with e | ret <;> dsimp only at h
      · simp at h
      · rcases hrec : handle_tool_call sinkOk rest w1 with ⟨r2, w2⟩
        rw [hrec] at h
        rcases r2 with e | msgs <;> dsimp only at h
        · simp at h
        · simp only [Prod.mk.injEq, Except.ok.injEq] at h
          obtain ⟨h1, h2⟩ := h
          subst h2
          obtain ⟨hl, hr, hm⟩ := ih w1 msgs hrec
          subst h1
          refine ⟨by simp [hl], ?_, by simp [hm]⟩
          intro m hm'
          cases hm' with
          | head => rfl
          | tail _ hmem => exact hr m hmem

theorem handle_tool_call_sink_irrelevant (sinkOk sinkOk' : String → Bool)
    (tcs : List ToolCall) : ∀ w,
    handle_tool_call sinkOk tcs w = handle_tool_call sinkOk' tcs w := by
  induction tcs with
  | nil => intro w; rfl
  | cons tc rest ih =>
    intro w
    unfold handle_tool_call
    rcases json_loads tc.function.arguments with e | kw <;> dsimp only
    have hd : dispatch sinkOk tc.function.name kw w = dispatch sinkOk' tc.function.name kw w := by
      unfold dispatch
      rcases globals_get tc.function.name with _ | g
      · rfl
      · cases g with
        | fn f => cases f <;> rfl
        | other => rfl
    rw [hd]
    rcases dispatch sinkOk' tc.function.name kw w with ⟨r1, w1⟩
    rcases r1 with e | ret <;> dsimp only
    rw [ih w1]

theorem one_le_chat_rounds_ncalls (sinkOk : String → Bool)
    (script : List GenResponse) (msgs : List Msg) (w : World) :
    1 ≤ (chat_rounds sinkOk script msgs w).ncalls := by
  cases script with
  | nil => simp [chat_rounds]
  | cons r rest =>
    simp only [chat_rounds]
    split
    · rcases handle_tool_call sinkOk r.message.tool_calls w with ⟨r1, w1⟩
      rcases r1 with e | res
      · simp
      · simp
    · simp

theorem chat_rounds_script_spec (sinkOk : String → Bool) (front : List GenResponse)
    (last : GenResponse)
    (hfront : ∀ r ∈ front, r.finish_reason = "tool_calls" ∧ r.message.tool_calls.all callOk = true)
    (hlast : last.finish_reason ≠ "tool_calls") :
    ∀ (msgs : List Msg) (w : World),
      (chat_rounds sinkOk (front ++ [last]) msgs w).ncalls = front.length + 1 ∧
      (chat_rounds sinkOk (front ++ [last]) msgs w).result = .ok last.message.content := by
  induction front with
  | nil =>
    intro msgs w
    simp [chat_rounds, hlast]
  | cons r rest ih =>
    intro msgs w
    have hr := hfront r (List.mem_cons_self r rest)
    have hrest : ∀ x ∈ rest, x.finish_reason = "tool_calls" ∧ x.message.tool_calls.all callOk = true :=
      fun x hx => hfront x (List.mem_cons_of_mem r hx)
    obtain ⟨res, w', hres⟩ := handle_tool_call_all_ok sinkOk r.message.tool_calls hr.2 w
    have h1 := ih hrest (msgs ++ [assistantMsg r.message] ++ res) w'
    rw [List.cons_append]
    simp only [chat_rounds]
    rw [if_pos hr.1, hres]
    dsimp only
    exact ⟨by rw [h1.1]; simp, h1.2⟩

theorem chat_rounds_passed_inv (sinkOk : String → Bool) (script : List GenResponse) :
    ∀ (msgs : List Msg) (w : World),
      msgs.countP (fun m => m.role == "system") = 1 →
      (msgs.head?.map (fun m => m.role)) = some "system" →
      ∀ seq ∈ (chat_rounds sinkOk script msgs w).passed,
        seq.countP (fun m => m.role == "system") = 1 ∧
        (seq.head?.map (fun m => m.role)) = some "system" := by
  induction script with
  | nil =>
    intro msgs w h1 h2 seq hseq
    simp only [chat_rounds, List.mem_singleton] at hseq
    subst hseq
    exact ⟨h1, h2⟩
  | cons r rest ih =>
    intro msgs w h1 h2 seq hseq
    by_cases hf : r.finish_reason = "tool_calls"
    · simp only [chat_rounds] at hseq
      rw [if_pos hf] at hseq
      rcases hres : handle_tool_call sinkOk r.message.tool_calls w with ⟨r1, w1⟩
      rw [hres] at hseq
      rcases r1 with e | results <;> dsimp only at hseq
      · simp only [List.mem_singleton] at hseq
        subst hseq
        exact ⟨h1, h2⟩
      · rcases List.mem_cons.mp hseq with hseq | hseq
        · subst hseq
          exact ⟨h1, h2⟩
        · have hroles := (handle_tool_call_results_spec sinkOk r.message.tool_calls w w1
            results hres).2.1
          apply ih (msgs ++ [assistantMsg r.message] ++ results) w1 ?hc ?hh seq hseq
          case hc =>
            rw [List.countP_append, List.countP_append]
            have hres0 : results.countP (fun m => m.role == "system") = 0 :=
              List.countP_eq_zero.mpr (fun m hm => by simp [hroles m hm])
            simp [h1, hres0, assistantMsg]
          case hh =>
            cases msgs with
            | nil => simp at h2
            | cons m0 tl => simpa using h2
    · simp only [chat_rounds] at hseq
      rw [if_neg hf] at hseq
      simp only [List.mem_singleton] at hseq
      subst hseq
      exact ⟨h1, h2⟩

theorem chat_rounds_cons_tool (sinkOk : String → Bool) (r : GenResponse)
    (rest : List GenResponse) (msgs : List Msg) (w w' : World) (results : List Msg)
    (hf : r.finish_reason = "tool_calls")
    (hres : handle_tool_call sinkOk r.message.tool_calls w = (.ok results, w')) :
    chat_rounds sinkOk (r :: rest) msgs w =
      ⟨(chat_rounds sinkOk rest (msgs ++ [assistantMsg r.message] ++ results) w').result,
       (chat_rounds sinkOk rest (msgs ++ [assistantMsg r.message] ++ results) w').world,
       (chat_rounds sinkOk rest (msgs ++ [assistantMsg r.message] ++ results) w').ncalls + 1,
       msgs :: (chat_rounds sinkOk rest (msgs ++ [assistantMsg r.message] ++ results) w').passed⟩ := by
  conv_lhs => rw [chat_rounds]
  rw [if_pos hf, hres]

theorem chat_rounds_cons_tool_error (sinkOk : String → Bool) (r : GenResponse)
    (rest : List GenResponse) (msgs : List Msg) (w w' : World) (e : PyErr)
    (hf : r.finish_reason = "tool_calls")
    (hres : handle_tool_call sinkOk r.message.tool_calls w = (.error e, w')) :
    chat_rounds sinkOk (r :: rest) msgs w = ⟨.error e, w', 1, [msgs]⟩ := by
  conv_lhs => rw [chat_rounds]
  rw [if_pos hf, hres]

/-! ## Claim theorems -/

/-- C1: for every list of N tool calls carried by one model response, when
`handle_tool_call` returns it returns exactly N tool-result messages, each
with role `"tool"`, each `tool_call_id` equal to the id of the corresponding
request, in the same relative order as the requests. -/
theorem handle_tool_call_results_correlate (sinkOk : String → Bool)
    (tcs : List ToolCall) (w w' : World) (res : List Msg)
    (h : handle_tool_call sinkOk tcs w = (.ok res, w')) :
    res.length = tcs.length ∧
    (∀ m ∈ res, m.role = "tool") ∧
    res.map (fun m => m.tool_call_id) = tcs.map (fun tc => some tc.id) :=
  handle_tool_call_results_spec sinkOk tcs w w' res h

/-- Witness for C1: a concrete batch of two tool calls. -/
theorem handle_tool_call_results_correlate_witness :
    [({ role := "tool", content := some "\x7b\"recorded\": \"ok\"\x7d",
        tool_call_id := some "call_1" } : Msg),
     { role := "tool", content := some "\x7b\"recorded\": \"ok\"\x7d",
        tool_call_id := some "call_2" }].length =
      [(⟨"call_1", ⟨"record_unknown_question", .obj [("question", "Do you know Rust?")]⟩⟩ : ToolCall),
       ⟨"call_2", ⟨"record_user_details", .obj [("email", "a@x.com")]⟩⟩].length ∧
    (∀ m ∈ [({ role := "tool", content := some "\x7b\"recorded\": \"ok\"\x7d",
               tool_call_id := some "call_1" } : Msg),
            { role := "tool", content := some "\x7b\"recorded\": \"ok\"\x7d",
               tool_call_id := some "call_2" }], m.role = "tool") ∧
    [({ role := "tool", content := some "\x7b\"recorded\": \"ok\"\x7d",
        tool_call_id := some "call_1" } : Msg),
     { role := "tool", content := some "\x7b\"recorded\": \"ok\"\x7d",
        tool_call_id := some "call_2" }].map (fun m => m.tool_call_id) =
      [(⟨"call_1", ⟨"record_unknown_question", .obj [("question", "Do you know Rust?")]⟩⟩ : ToolCall),
       ⟨"call_2", ⟨"record_user_details", .obj [("email", "a@x.com")]⟩⟩].map (fun tc => some tc.id) :=
  handle_tool_call_results_correlate (fun _ => true)
    [⟨"call_1", ⟨"record_unknown_question", .obj [("question", "Do you know Rust?")]⟩⟩,
     ⟨"call_2", ⟨"record_user_details", .obj [("email", "a@x.com")]⟩⟩]
    ⟨[], []⟩
    ⟨["Recording Do you know Rust?",
      "Recording Name not provided with email a@x.com and notes not provided"],
     ["record_unknown_question", "record_user_details"]⟩
    [{ role := "tool", content := some "\x7b\"recorded\": \"ok\"\x7d",
        tool_call_id := some "call_1" },
     { role := "tool", content := some "\x7b\"recorded\": \"ok\"\x7d",
        tool_call_id := some "call_2" }]
    (by decide)

/-- C2: if the first endpoint response of a turn has a finish reason other
than `"tool_calls"`, `chat` returns exactly that response's text content,
makes one endpoint call, invokes no tools, and leaves the side-effect state
untouched. -/
theorem chat_without_tool_calls_returns_content (me : Me) (sinkOk : String → Bool)
    (r : GenResponse) (rest : List GenResponse) (message : String)
    (history : List Msg) (w : World) (h : r.finish_reason ≠ "tool_calls") :
    Me.chat me sinkOk (r :: rest) message history w =
      ⟨.ok r.message.content, w, 1,
        [{ role := "system", content := some me.system_prompt } :: history ++
          [{ role := "user", content := some message }]]⟩ := by
  unfold Me.chat
  simp [chat_rounds, h]

/-- Witness for C2: the spec scenario (empty history, finish reason `"stop"`,
content `"I have 5 years of experience."`). -/
theorem chat_without_tool_calls_returns_content_witness :
    Me.chat ⟨"Mahad Habib Rana", "summary text", "linkedin text"⟩ (fun _ => true)
      [⟨"stop", ⟨some "I have 5 years of experience.", []⟩⟩]
      "What is your background?" [] ⟨[], []⟩ =
      ⟨.ok (some "I have 5 years of experience."), ⟨[], []⟩, 1,
        [[{ role := "system",
            content := some (Me.system_prompt
              ⟨"Mahad Habib Rana", "summary text", "linkedin text"⟩) },
          { role := "user", content := some "What is your background?" }]]⟩ :=
  chat_without_tool_calls_returns_content
    ⟨"Mahad Habib Rana", "summary text", "linkedin text"⟩ (fun _ => true)
    ⟨"stop", ⟨some "I have 5 years of experience.", []⟩⟩ []
    "What is your background?" [] ⟨[], []⟩ (by decide)

/-- C3 counterexample: `"push"` is not one of the registered (declared)
tools, yet a tool call named `"push"` does not yield the empty object `\x7b\x7d`
as its result content: the module-level function `push` is resolved and
invoked, and the emitted content is `"null"`. -/
theorem push_name_not_registered_result_not_empty :
    "push" ∉ declared_tool_names ∧
    (handle_tool_call (fun _ => true)
        [⟨"call_1", ⟨"push", .obj [("text", "hi")]⟩⟩] ⟨[], []⟩).1 =
      .ok [{ role := "tool", content := some "null", tool_call_id := some "call_1" }] ∧
    "null" ≠ "\x7b\x7d" := by
  decide

/-- C3 (amended): for every tool call whose name is not bound in the
module's global namespace, the emitted tool-result content is the empty
object `\x7b\x7d`, the side-effect state is untouched, and the loop proceeds to
request another generation round instead of aborting the turn. -/
theorem unknown_tool_yields_empty_and_continues (me : Me) (sinkOk : String → Bool)
    (nm id : String) (kw : List (String × String)) (r2 : GenResponse)
    (more : List GenResponse) (message : String) (history : List Msg) (w : World)
    (h : globals_get nm = none) :
    handle_tool_call sinkOk [⟨id, ⟨nm, .obj kw⟩⟩] w =
      (.ok [{ role := "tool", content := some "\x7b\x7d", tool_call_id := some id }], w) ∧
    2 ≤ (Me.chat me sinkOk
          (⟨"tool_calls", ⟨none, [⟨id, ⟨nm, .obj kw⟩⟩]⟩⟩ :: r2 :: more)
          message history w).ncalls := by
  have hc : json_dumps (.dict []) = "\x7b\x7d" := rfl
  have h1 : handle_tool_call sinkOk [⟨id, ⟨nm, .obj kw⟩⟩] w =
      (.ok [{ role := "tool", content := some "\x7b\x7d", tool_call_id := some id }], w) := by
    simp [handle_tool_call, json_loads, dispatch, h, hc]
  refine ⟨h1, ?_⟩
  unfold Me.chat
  rw [chat_rounds_cons_tool sinkOk ⟨"tool_calls", ⟨none, [⟨id, ⟨nm, .obj kw⟩⟩]⟩⟩
    (r2 :: more) _ w w _ rfl h1]
  have := one_le_chat_rounds_ncalls sinkOk (r2 :: more)
    ((({ role := "system", content := some me.system_prompt } : Msg) :: history ++
        [{ role := "user", content := some message }]) ++
      [assistantMsg ⟨none, [⟨id, ⟨nm, .obj kw⟩⟩]⟩] ++
      [{ role := "tool", content := some "\x7b\x7d", tool_call_id := some id }]) w
  simpa using Nat.succ_le_succ this

/-- Witness for C3 (amended): the unbound name `"get_current_weather"`. -/
theorem unknown_tool_yields_empty_and_continues_witness :
    handle_tool_call (fun _ => true)
        [⟨"call_9", ⟨"get_current_weather", .obj [("city", "Lahore")]⟩⟩] ⟨[], []⟩ =
      (.ok [{ role := "tool", content := some "\x7b\x7d", tool_call_id := some "call_9" }],
        ⟨[], []⟩) ∧
    2 ≤ (Me.chat ⟨"Mahad Habib Rana", "summary text", "linkedin text"⟩ (fun _ => true)
          [⟨"tool_calls", ⟨none, [⟨"call_9", ⟨"get_current_weather", .obj [("city", "Lahore")]⟩⟩]⟩⟩,
           ⟨"stop", ⟨some "done", []⟩⟩]
          "hi" [] ⟨[], []⟩).ncalls :=
  unknown_tool_yields_empty_and_continues
    ⟨"Mahad Habib Rana", "summary text", "linkedin text"⟩ (fun _ => true)
    "get_current_weather" "call_9" [("city", "Lahore")]
    ⟨"stop", ⟨some "done", []⟩⟩ [] "hi" [] ⟨[], []⟩ (by decide)

/-- C4: if the endpoint answers the first k rounds of a turn with finish
reason `"tool_calls"` (each round's tool calls handled without an
exception) and round k+1 with any other finish reason, `chat` makes exactly
k+1 endpoint calls and returns that round's content; k is arbitrary — the
loop imposes no iteration cap. -/
theorem chat_makes_k_plus_one_endpoint_calls (me : Me) (sinkOk : String → Bool)
    (k : Nat) (front : List GenResponse) (last : GenResponse) (message : String)
    (history : List Msg) (w : World)
    (hk : front.length = k)
    (hfront : ∀ r ∈ front, r.finish_reason = "tool_calls" ∧
      r.message.tool_calls.all callOk = true)
    (hlast : last.finish_reason ≠ "tool_calls") :
    (Me.chat me sinkOk (front ++ [last]) message history w).ncalls = k + 1 ∧
    (Me.chat me sinkOk (front ++ [last]) message history w).result =
      .ok last.message.content := by
  subst hk
  exact chat_rounds_script_spec sinkOk front last hfront hlast _ w

/-- Witness for C4: one tool round (k = 1) followed by a terminal round. -/
theorem chat_makes_k_plus_one_endpoint_calls_witness :
    (Me.chat ⟨"Mahad Habib Rana", "summary text", "linkedin text"⟩ (fun _ => true)
        ([⟨"tool_calls",
            ⟨none, [⟨"call_1", ⟨"record_unknown_question",
              .obj [("question", "Do you know Rust?")]⟩⟩]⟩⟩] ++
          [⟨"stop", ⟨some "Logged your question.", []⟩⟩])
        "Do you know Rust?" [] ⟨[], []⟩).ncalls = 1 + 1 ∧
    (Me.chat ⟨"Mahad Habib Rana", "summary text", "linkedin text"⟩ (fun _ => true)
        ([⟨"tool_calls",
            ⟨none, [⟨"call_1", ⟨"record_unknown_question",
              .obj [("question", "Do you know Rust?")]⟩⟩]⟩⟩] ++
          [⟨"stop", ⟨some "Logged your question.", []⟩⟩])
        "Do you know Rust?" [] ⟨[], []⟩).result = .ok (some "Logged your question.") :=
  chat_makes_k_plus_one_endpoint_calls
    ⟨"Mahad Habib Rana", "summary text", "linkedin text"⟩ (fun _ => true) 1
    [⟨"tool_calls",
        ⟨none, [⟨"call_1", ⟨"record_unknown_question",
          .obj [("question", "Do you know Rust?")]⟩⟩]⟩⟩]
    ⟨"stop", ⟨some "Logged your question.", []⟩⟩
    "Do you know Rust?" [] ⟨[], []⟩ rfl (by decide) (by decide)

/-- C5: the two recording tools ignore the outcome of the outbound
notification send: the run under any send-outcome oracle equals the run
under any other, the returned value is always `(recorded, ok)`, exactly one
notification is emitted per call, and `handle_tool_call` as a whole is
independent of send outcomes, so no send failure reaches the model or the
user. -/
theorem record_tools_swallow_send_failure (sinkOk sinkOk' : String → Bool)
    (email nm nt q : String) (tcs : List ToolCall) (w : World) :
    record_user_details sinkOk email nm nt w = record_user_details sinkOk' email nm nt w ∧
    (record_user_details sinkOk email nm nt w).2 = .dict [("recorded", "ok")] ∧
    (record_user_details sinkOk email nm nt w).1.sent =
      w.sent ++ [s!"Recording {nm} with email {email} and notes {nt}"] ∧
    record_unknown_question sinkOk q w = record_unknown_question sinkOk' q w ∧
    (record_unknown_question sinkOk q w).2 = .dict [("recorded", "ok")] ∧
    (record_unknown_question sinkOk q w).1.sent = w.sent ++ [s!"Recording {q}"] ∧
    handle_tool_call sinkOk tcs w = handle_tool_call sinkOk' tcs w :=
  ⟨rfl, rfl, rfl, rfl, rfl, rfl, handle_tool_call_sink_irrelevant sinkOk sinkOk' tcs w⟩

/-- C6: a tool call whose argument payload fails to parse is fatal to the
turn: `handle_tool_call` propagates the decoding error without emitting any
tool-result message, and `chat` propagates it to the caller. -/
theorem malformed_arguments_error_propagates (me : Me) (sinkOk : String → Bool)
    (tc : ToolCall) (rest : List ToolCall) (c : Option String)
    (more : List GenResponse) (message : String) (history : List Msg) (w : World)
    (h : tc.function.arguments = .malformed) :
    handle_tool_call sinkOk (tc :: rest) w = (.error .jsonDecodeError, w) ∧
    (Me.chat me sinkOk (⟨"tool_calls", ⟨c, tc :: rest⟩⟩ :: more) message history w).result =
      .error .jsonDecodeError := by
  have h1 : handle_tool_call sinkOk (tc :: rest) w = (.error .jsonDecodeError, w) := by
    unfold handle_tool_call
    rw [h]
    rfl
  refine ⟨h1, ?_⟩
  unfold Me.chat
  rw [chat_rounds_cons_tool_error sinkOk ⟨"tool_calls", ⟨c, tc :: rest⟩⟩ more _ w w
    .jsonDecodeError rfl h1]

/-- Witness for C6: a `record_unknown_question` call with a malformed
payload. -/
theorem malformed_arguments_error_propagates_witness :
    handle_tool_call (fun _ => true)
        [⟨"call_3", ⟨"record_unknown_question", .malformed⟩⟩] ⟨[], []⟩ =
      (.error .jsonDecodeError, ⟨[], []⟩) ∧
    (Me.chat ⟨"Mahad Habib Rana", "summary text", "linkedin text"⟩ (fun _ => true)
        [⟨"tool_calls", ⟨none, [⟨"call_3", ⟨"record_unknown_question", .malformed⟩⟩]⟩⟩]
        "hi" [] ⟨[], []⟩).result = .error .jsonDecodeError :=
  malformed_arguments_error_propagates
    ⟨"Mahad Habib Rana", "summary text", "linkedin text"⟩ (fun _ => true)
    ⟨"call_3", ⟨"record_unknown_question", .malformed⟩⟩ [] none [] "hi" [] ⟨[], []⟩ rfl

/-- C7 counterexample: with a caller-supplied history that itself contains a
system-role message, the sequence passed to the endpoint contains two
system messages, so the claim fails for that history. -/
theorem system_in_history_breaks_uniqueness :
    ((Me.chat ⟨"Mahad Habib Rana", "summary text", "linkedin text"⟩ (fun _ => true)
        [⟨"stop", ⟨some "hi", []⟩⟩] "What is your background?"
        [{ role := "system", content := some "injected system message" }]
        ⟨[], []⟩).passed.map
      (fun seq => seq.countP (fun m => m.role == "system"))) = [2] := by
  decide

/-- C7 (amended): for every caller-supplied history containing no
system-role message, every message sequence passed to the generation
endpoint during the turn contains exactly one system message, and it is
first. -/
theorem system_message_unique_and_first (me : Me) (sinkOk : String → Bool)
    (script : List GenResponse) (message : String) (history : List Msg) (w : World)
    (h : ∀ m ∈ history, m.role ≠ "system") :
    ∀ seq ∈ (Me.chat me sinkOk script message history w).passed,
      seq.countP (fun m => m.role == "system") = 1 ∧
      (seq.head?.map (fun m => m.role)) = some "system" := by
  apply chat_rounds_passed_inv
  · have hh : history.countP (fun m => m.role == "system") = 0 :=
      List.countP_eq_zero.mpr (fun m hm => by simp [h m hm])
    simp [List.countP_cons, List.countP_append, hh]
  · rfl

/-- Witness for C7 (amended): a one-message user-role history. -/
theorem system_message_unique_and_first_witness :
    ([{ role := "system",
        content := some (Me.system_prompt
          ⟨"Mahad Habib Rana", "summary text", "linkedin text"⟩) },
      ({ role := "user", content := some "earlier question" } : Msg),
      { role := "user", content := some "What is your background?" }].countP
        (fun m => m.role == "system") = 1) ∧
    (([({ role := "system",
          content := some (Me.system_prompt
            ⟨"Mahad Habib Rana", "summary text", "linkedin text"⟩) } : Msg),
        { role := "user", content := some "earlier question" },
        { role := "user", content := some "What is your background?" }].head?.map
      (fun m => m.role)) = some "system") :=
  system_message_unique_and_first
    ⟨"Mahad Habib Rana", "summary text", "linkedin text"⟩ (fun _ => true)
    [⟨"stop", ⟨some "hi", []⟩⟩] "What is your background?"
    [{ role := "user", content := some "earlier question" }] ⟨[], []⟩
    (by decide)
    [{ role := "system",
        content := some (Me.system_prompt
          ⟨"Mahad Habib Rana", "summary text", "linkedin text"⟩) },
      { role := "user", content := some "earlier question" },
      { role := "user", content := some "What is your background?" }]
    (List.mem_singleton.mpr rfl)

/-- C8: `record_user_details` invoked with only `email` supplied returns
`(recorded, ok)` and sends exactly one notification whose text carries the
placeholders `"Name not provided"` and `"not provided"` and the email
verbatim. -/
theorem record_user_details_placeholder_notification (sinkOk : String → Bool)
    (email : String) (w : World) :
    dispatch sinkOk "record_user_details" [("email", email)] w =
      (.ok (.dict [("recorded", "ok")]),
        { sent := w.sent ++
            ["Recording Name not provided with email " ++ email ++ " and notes not provided"],
          invoked := w.invoked ++ ["record_user_details"] }) ∧
    (∃ a b, "Recording Name not provided with email " ++ email ++ " and notes not provided" =
        a ++ "Name not provided" ++ b) ∧
    (∃ a b, "Recording Name not provided with email " ++ email ++ " and notes not provided" =
        a ++ "not provided" ++ b) ∧
    (∃ a b, "Recording Name not provided with email " ++ email ++ " and notes not provided" =
        a ++ email ++ b) := by
  refine ⟨?_, ⟨"Recording ", " with email " ++ email ++ " and notes not provided", ?_⟩,
    ⟨"Recording Name not provided with email " ++ email ++ " and notes ", "", ?_⟩,
    ⟨"Recording Name not provided with email ", " and notes not provided", rfl⟩⟩
  · have hs : (let nm : String := "Name not provided"
               let nt : String := "not provided"
               s!"Recording {nm} with email {email} and notes {nt}") =
        "Recording Name not provided with email " ++ email ++ " and notes not provided" := by
      apply String.ext
      simp [String.data_append, toString, instToStringString]
    exact congrArg
      (fun s : String =>
        ((Except.ok (ToolRet.dict [("recorded", "ok")]) : Except PyErr ToolRet),
          ({ sent := w.sent ++ [s], invoked := w.invoked ++ ["record_user_details"] } : World)))
      hs
  · apply String.ext
    simp [String.data_append]
  · apply String.ext
    simp [String.data_append]

/-- C9: tool-name resolution is dispatch against the module's global
bindings: the non-declared module-level callable `push` is resolved and
invoked with the decoded arguments (sending the text as a notification and
serializing its `None` return as `"null"`), instead of yielding the empty
result object. -/
theorem globals_dispatch_invokes_push (sinkOk : String → Bool) (id s : String)
    (w : World) :
    (globals_get "push").isSome = true ∧
    "push" ∉ declared_tool_names ∧
    handle_tool_call sinkOk [⟨id, ⟨"push", .obj [("text", s)]⟩⟩] w =
      (.ok [{ role := "tool", content := some "null", tool_call_id := some id }],
        { sent := w.sent ++ [s], invoked := w.invoked ++ ["push"] }) := by
  refine ⟨rfl, by decide, ?_⟩
  rfl

/-- C10: a terminal endpoint response can carry null content, and `chat`
then returns that null value rather than any text string. -/
theorem chat_can_return_null_content :
    (Me.chat ⟨"Mahad Habib Rana", "summary text", "linkedin text"⟩ (fun _ => true)
        [⟨"stop", ⟨none, []⟩⟩] "What is your background?" [] ⟨[], []⟩).result =
      .ok none ∧
    ∀ str : String,
      (Me.chat ⟨"Mahad Habib Rana", "summary text", "linkedin text"⟩ (fun _ => true)
          [⟨"stop", ⟨none, []⟩⟩] "What is your background?" [] ⟨[], []⟩).result ≠
        .ok (some str) := by
  have h : (Me.chat ⟨"Mahad Habib Rana", "summary text", "linkedin text"⟩ (fun _ => true)
      [⟨"stop", ⟨none, []⟩⟩] "What is your background?" [] ⟨[], []⟩).result = .ok none := rfl
  refine ⟨h, fun str hstr => ?_⟩
  rw [h] at hstr
  simp at hstr

end App
